import Mathlib

/-!
Shallow embedding of the vim-mode coordination core
(src/crates/vim/src/vim.rs): the global modal state machine
(`VimState`), its two mutation operations `switch_mode` and
`set_enabled`, the synchronization pass `sync_editor_options`, and the
active-editor lookup `update_active_editor`.

Editors are host-owned objects reachable only through weak handles.  We
model the host arena as an association list `World` from handle to the
observable per-editor configuration; a weak reference is a `Nat` handle
and `upgrade` is lookup, which fails exactly when the editor has been
destroyed (its handle is absent from the arena).

The two mutation operations additionally return a `Nat` counting how
many times `sync_editor_options` was invoked by the call, so that
"synchronization is triggered (at most) once" is statable.
-/

namespace Vim

/-- Modelled from the spec: the `mode` module (mode.rs) is not under src/.
Section 3 specifies Mode as a closed variant type, minimally containing
Normal and Insert. -/
inductive Mode where
  | Normal
  | Insert
deriving DecidableEq, Repr

/-- Modelled from the spec: section 4.1 specifies a designated default
variant, used while modal editing is disabled, distinct from the entry
variant Normal; with the minimal variant set that forces Insert. -/
def Mode.default : Mode := .Insert

/-- Modelled from the spec: sections 4.1 and 4.3 name Normal as the entry
variant returned by the `Mode::normal()` constructor. -/
def Mode.normal : Mode := .Normal

/-- Modelled from the spec: section 4.1 specifies the cursor presentation
set as Block and Bar (`CursorShape` lives in the external editor crate). -/
inductive CursorShape where
  | Block
  | Bar
deriving DecidableEq, Repr

/-- Modelled from the spec: section 8 fixes Normal to a Block cursor and
Insert to a Bar cursor. -/
def Mode.cursor_shape : Mode → CursorShape
  | .Normal => .Block
  | .Insert => .Bar

/-- Modelled from the spec: section 4.1 specifies an opaque per-mode tag
consumed by the external key-dispatch layer; distinct tags per variant. -/
def Mode.keymap_context_layer : Mode → String
  | .Normal => "Normal"
  | .Insert => "Insert"

/-- Modelled from the spec: section 6 lists the five configuration setters
an editor surface exposes; this record is the observable configuration
those setters control. -/
structure EditorOptions where
  cursor_shape : CursorShape
  clip_at_line_ends : Bool
  input_enabled : Bool
  keymap_context_layer : Option String
deriving DecidableEq, Repr

def EditorOptions.set_cursor_shape (e : EditorOptions) (s : CursorShape) : EditorOptions :=
  { e with cursor_shape := s }

def EditorOptions.set_clip_at_line_ends (e : EditorOptions) (b : Bool) : EditorOptions :=
  { e with clip_at_line_ends := b }

def EditorOptions.set_input_enabled (e : EditorOptions) (b : Bool) : EditorOptions :=
  { e with input_enabled := b }

def EditorOptions.set_keymap_context_layer (e : EditorOptions) (t : String) : EditorOptions :=
  { e with keymap_context_layer := some t }

def EditorOptions.remove_keymap_context_layer (e : EditorOptions) : EditorOptions :=
  { e with keymap_context_layer := none }

/-- Modelled from the spec: sections 3 and 6 — the host-owned arena of live
editors, keyed by handle; a weak reference resolves iff its handle is
present. -/
abbrev World := List (Nat × EditorOptions)

/-- Modelled from the spec: resolving a weak reference (`upgrade`) is a
fallible lookup in the host arena. -/
def World.upgrade : World → Nat → Option EditorOptions
  | [], _ => none
  | p :: w, h => if p.1 = h then some p.2 else World.upgrade w h

/-- Modelled from the spec: mutating a resolved editor through its handle
updates the arena entry in place. -/
def World.updateEditor (w : World) (h : Nat) (f : EditorOptions → EditorOptions) : World :=
  w.map fun p => if p.1 = h then (p.1, f p.2) else p

/-- The global modal state (struct `VimState` in vim.rs): the editor
registry (stable id to weak handle), the optional active-editor weak
handle, the enabled flag and the current mode. -/
structure VimState where
  editors : List (Nat × Nat)
  active_editor : Option Nat
  enabled : Bool
  mode : Mode
deriving DecidableEq, Repr

/-- `#[derive(Default)]` on `VimState`: empty registry, no active editor,
`enabled = false`, `mode = Mode::default()`. -/
def VimState.mk_default : VimState :=
  { editors := [], active_editor := none, enabled := false, mode := Mode.default }

/-- `VimState::update_active_editor`: clone the active weak handle, try to
upgrade it, and on success run `update` on the resolved editor; absence at
either step yields `none` with the arena untouched. -/
def VimState.update_active_editor {S : Type} (s : VimState) (w : World)
    (update : EditorOptions → EditorOptions × S) : Option S × World :=
  match s.active_editor with
  | none => (none, w)
  | some ae =>
    match w.upgrade ae with
    | none => (none, w)
    | some e =>
      let r := update e
      (some r.2, w.updateEditor ae fun _ => r.1)

/-- The per-editor closure of `VimState::sync_editor_options`: when enabled,
push the mode's cursor shape, clip at line ends iff the shape is Block,
forward raw input iff the mode is Insert, and install the mode's keymap
context layer; when disabled, reset to a Bar cursor, no clipping, input
forwarding on, and remove the context layer. -/
def apply_editor_sync (enabled : Bool) (mode : Mode) (editor : EditorOptions) : EditorOptions :=
  let cursor_shape := mode.cursor_shape
  if enabled then
    (((editor.set_cursor_shape cursor_shape).set_clip_at_line_ends
        (cursor_shape == CursorShape.Block)).set_input_enabled
        (mode == Mode.Insert)).set_keymap_context_layer mode.keymap_context_layer
  else
    (((editor.set_cursor_shape CursorShape.Bar).set_clip_at_line_ends
        false).set_input_enabled true).remove_keymap_context_layer

/-- The configuration `apply_editor_sync` leaves on an editor, in closed
form: it overwrites every observable field, so it is a constant of
`(enabled, mode)` alone (proved below as `apply_editor_sync_eq`). -/
def synced_options (enabled : Bool) (mode : Mode) : EditorOptions :=
  if enabled then
    { cursor_shape := mode.cursor_shape,
      clip_at_line_ends := mode.cursor_shape == CursorShape.Block,
      input_enabled := mode == Mode.Insert,
      keymap_context_layer := some mode.keymap_context_layer }
  else
    { cursor_shape := CursorShape.Bar, clip_at_line_ends := false,
      input_enabled := true, keymap_context_layer := none }

/-- One iteration of the loop in `VimState::sync_editor_options`: upgrade
the entry's weak handle, and only on success update the editor. -/
def sync_step (enabled : Bool) (mode : Mode) (w : World) (entry : Nat × Nat) : World :=
  match w.upgrade entry.2 with
  | none => w
  | some _ => w.updateEditor entry.2 (apply_editor_sync enabled mode)

/-- The loop of `VimState::sync_editor_options` over the registry entries:
entries that fail to resolve are skipped. -/
def sync_fold (enabled : Bool) (mode : Mode) (l : List (Nat × Nat)) (w : World) : World :=
  l.foldl (sync_step enabled mode) w

/-- `VimState::sync_editor_options`: push the configuration implied by the
current `(enabled, mode)` to every live registered editor.  The receiver is
taken immutably in the source (`&self`), so the pass returns only the
updated arena. -/
def VimState.sync_editor_options (s : VimState) (w : World) : World :=
  sync_fold s.enabled s.mode s.editors w

/-- `VimState::switch_mode`: unconditionally store the new mode, then run
the synchronization pass.  The `Nat` component counts synchronization
invocations performed by the call. -/
def VimState.switch_mode (s : VimState) (mode : Mode) (w : World) : VimState × World × Nat :=
  let s := { s with mode := mode }
  (s, s.sync_editor_options w, 1)

/-- `VimState::set_enabled`: a no-op unless the flag changes; on change,
store the flag, reset the mode to the default, overwrite it with the entry
mode when enabling, then run the synchronization pass.  The `Nat` component
counts synchronization invocations performed by the call. -/
def VimState.set_enabled (s : VimState) (enabled : Bool) (w : World) : VimState × World × Nat :=
  if s.enabled ≠ enabled then
    let s1 : VimState := { s with enabled := enabled, mode := Mode.default }
    let s2 : VimState := if enabled then { s1 with mode := Mode.normal } else s1
    (s2, s2.sync_editor_options w, 1)
  else
    (s, w, 0)

/-- A sequence of `switch_mode` calls, threading state and arena. -/
def VimState.run_switch_modes : VimState → World → List Mode → VimState × World
  | s, w, [] => (s, w)
  | s, w, m :: ms =>
    let r := s.switch_mode m w
    r.1.run_switch_modes r.2.1 ms

/-! ### Basic lemmas about the editor arena and the synchronization pass -/

theorem apply_editor_sync_eq (enabled : Bool) (mode : Mode) (e : EditorOptions) :
    apply_editor_sync enabled mode e = synced_options enabled mode := by
  cases enabled <;> rfl

theorem upgrade_updateEditor (w : World) (k h : Nat) (f : EditorOptions → EditorOptions) :
    (w.updateEditor h f).upgrade k =
      if k = h then (w.upgrade k).map f else w.upgrade k := by
  induction w with
  | nil => simp [World.updateEditor, World.upgrade]
  | cons p w ih =>
    simp only [World.updateEditor, List.map_cons] at ih ⊢
    by_cases hph : p.1 = h
    · by_cases hkp : p.1 = k
      · rw [if_pos hph]
        rw [World.upgrade, World.upgrade, if_pos hkp, if_pos hkp,
          if_pos (hkp.symm.trans hph), Option.map_some']
      · rw [if_pos hph]
        rw [World.upgrade, World.upgrade, if_neg hkp, if_neg hkp, ih]
    · by_cases hkp : p.1 = k
      · rw [if_neg hph]
        have hkh : ¬k = h := fun hc => hph (hkp.trans hc)
        rw [World.upgrade, World.upgrade, if_pos hkp, if_pos hkp, if_neg hkh]
      · rw [if_neg hph]
        rw [World.upgrade, World.upgrade, if_neg hkp, if_neg hkp, ih]

theorem sync_step_of_dead {w : World} {entry : Nat × Nat} (enabled : Bool) (mode : Mode)
    (hu : w.upgrade entry.2 = none) : sync_step enabled mode w entry = w := by
  simp [sync_step, hu]

theorem sync_step_of_live {w : World} {entry : Nat × Nat} {e : EditorOptions}
    (enabled : Bool) (mode : Mode) (hu : w.upgrade entry.2 = some e) :
    sync_step enabled mode w entry = w.updateEditor entry.2 (apply_editor_sync enabled mode) := by
  simp [sync_step, hu]

theorem upgrade_sync_step (enabled : Bool) (mode : Mode) (w : World) (entry : Nat × Nat)
    (k : Nat) :
    (sync_step enabled mode w entry).upgrade k =
      if entry.2 = k ∧ (w.upgrade k).isSome
      then some (synced_options enabled mode)
      else w.upgrade k := by
  cases hu : w.upgrade entry.2 with
  | none =>
    rw [sync_step_of_dead enabled mode hu]
    by_cases heq : entry.2 = k
    · subst heq; simp [hu]
    · simp [heq]
  | some e =>
    rw [sync_step_of_live enabled mode hu, upgrade_updateEditor]
    by_cases heq : entry.2 = k
    · subst heq
      simp [hu, apply_editor_sync_eq]
    · have hne : ¬k = entry.2 := fun hc => heq hc.symm
      rw [if_neg hne, if_neg (fun hc : entry.2 = k ∧ _ => heq hc.1)]

theorem upgrade_isSome_sync_step (enabled : Bool) (mode : Mode) (w : World)
    (entry : Nat × Nat) (k : Nat) :
    ((sync_step enabled mode w entry).upgrade k).isSome = (w.upgrade k).isSome := by
  rw [upgrade_sync_step]
  by_cases hc : entry.2 = k ∧ (w.upgrade k).isSome
  · rw [if_pos hc, hc.2, Option.isSome_some]
  · rw [if_neg hc]

theorem sync_fold_cons (enabled : Bool) (mode : Mode) (entry : Nat × Nat)
    (l : List (Nat × Nat)) (w : World) :
    sync_fold enabled mode (entry :: l) w =
      sync_fold enabled mode l (sync_step enabled mode w entry) := rfl

theorem upgrade_sync_fold (enabled : Bool) (mode : Mode) (l : List (Nat × Nat)) (k : Nat) :
    ∀ w : World,
      (sync_fold enabled mode l w).upgrade k =
        if (l.any fun entry => entry.2 == k) && (w.upgrade k).isSome
        then some (synced_options enabled mode)
        else w.upgrade k := by
  induction l with
  | nil => intro w; simp [sync_fold]
  | cons entry l ih =>
    intro w
    rw [sync_fold_cons, ih]
    rw [upgrade_isSome_sync_step, upgrade_sync_step]
    by_cases h1 : entry.2 = k
    · by_cases h2 : (w.upgrade k).isSome = true <;> simp [h1, h2]
    · by_cases h2 : (w.upgrade k).isSome = true
      · have hbeq : (entry.2 == k) = false := beq_eq_false_iff_ne.2 h1
        simp only [List.any_cons, hbeq, Bool.false_or, h2, Bool.and_true]
        rw [if_neg (fun hc : entry.2 = k ∧ _ => h1 hc.1)]
      · simp [h1, h2]

theorem any_handle_of_mem {l : List (Nat × Nat)} {id h : Nat} (hmem : (id, h) ∈ l) :
    (l.any fun entry => entry.2 == h) = true :=
  List.any_eq_true.2 ⟨(id, h), hmem, by simp⟩

theorem sync_fold_filter_live (enabled : Bool) (mode : Mode) (l : List (Nat × Nat)) :
    ∀ w : World,
      sync_fold enabled mode l w =
        sync_fold enabled mode (l.filter fun entry => (w.upgrade entry.2).isSome) w := by
  induction l with
  | nil => intro w; rfl
  | cons entry l ih =>
    intro w
    cases hu : w.upgrade entry.2 with
    | none =>
      have hfilter : List.filter (fun entry => (w.upgrade entry.2).isSome) (entry :: l) =
          List.filter (fun entry => (w.upgrade entry.2).isSome) l := by
        simp [List.filter_cons, hu]
      rw [sync_fold_cons, sync_step_of_dead enabled mode hu, hfilter]
      exact ih w
    | some e =>
      have hfilter : List.filter (fun entry => (w.upgrade entry.2).isSome) (entry :: l) =
          entry :: List.filter (fun entry => (w.upgrade entry.2).isSome) l := by
        simp [List.filter_cons, hu]
      rw [sync_fold_cons, hfilter, sync_fold_cons]
      rw [ih (sync_step enabled mode w entry)]
      congr 1
      refine List.filter_congr fun x _ => ?_
      rw [upgrade_isSome_sync_step]

/-! ### State-machine helper lemmas -/

theorem run_switch_modes_enabled (ms : List Mode) :
    ∀ (s : VimState) (w : World),
      (VimState.run_switch_modes s w ms).1.enabled = s.enabled := by
  induction ms with
  | nil => intro s w; rfl
  | cons m ms ih => intro s w; exact ih _ _

theorem set_enabled_noop (s : VimState) (v : Bool) (w : World) (h : s.enabled = v) :
    s.set_enabled v w = (s, w, 0) := by
  simp [VimState.set_enabled, h]

theorem set_enabled_false_of_enabled (s : VimState) (w : World) (h : s.enabled = true) :
    s.set_enabled false w =
      ({ s with enabled := false, mode := Mode.default },
        VimState.sync_editor_options { s with enabled := false, mode := Mode.default } w,
        1) := by
  simp [VimState.set_enabled, h]

theorem set_enabled_true_of_disabled (s : VimState) (w : World) (h : s.enabled = false) :
    s.set_enabled true w =
      ({ s with enabled := true, mode := Mode.normal },
        VimState.sync_editor_options { s with enabled := true, mode := Mode.normal } w,
        1) := by
  simp [VimState.set_enabled, h]

theorem set_enabled_fst_enabled (s : VimState) (v : Bool) (w : World) :
    (s.set_enabled v w).1.enabled = v := by
  by_cases h : s.enabled = v
  · rw [set_enabled_noop s v w h]; exact h
  · cases v
    · have h1 : s.enabled = true := by revert h; cases s.enabled <;> simp
      rw [set_enabled_false_of_enabled s w h1]
    · have h1 : s.enabled = false := by revert h; cases s.enabled <;> simp
      rw [set_enabled_true_of_disabled s w h1]

theorem set_enabled_editors (s : VimState) (v : Bool) (w : World) :
    (s.set_enabled v w).1.editors = s.editors := by
  by_cases h : s.enabled = v
  · rw [set_enabled_noop s v w h]
  · cases v
    · have h1 : s.enabled = true := by revert h; cases s.enabled <;> simp
      rw [set_enabled_false_of_enabled s w h1]
    · have h1 : s.enabled = false := by revert h; cases s.enabled <;> simp
      rw [set_enabled_true_of_disabled s w h1]

theorem set_enabled_active_editor (s : VimState) (v : Bool) (w : World) :
    (s.set_enabled v w).1.active_editor = s.active_editor := by
  by_cases h : s.enabled = v
  · rw [set_enabled_noop s v w h]
  · cases v
    · have h1 : s.enabled = true := by revert h; cases s.enabled <;> simp
      rw [set_enabled_false_of_enabled s w h1]
    · have h1 : s.enabled = false := by revert h; cases s.enabled <;> simp
      rw [set_enabled_true_of_disabled s w h1]

theorem set_enabled_false_mode (s : VimState) (w : World) (h : s.enabled = true) :
    (s.set_enabled false w).1.mode = Mode.default := by
  rw [set_enabled_false_of_enabled s w h]

theorem set_enabled_true_mode (s : VimState) (w : World) (h : s.enabled = false) :
    (s.set_enabled true w).1.mode = Mode.normal := by
  rw [set_enabled_true_of_disabled s w h]

theorem upgrade_sync_editor_options (s : VimState) (w : World) {id h : Nat}
    (hmem : (id, h) ∈ s.editors) {e : EditorOptions} (hlive : w.upgrade h = some e) :
    (s.sync_editor_options w).upgrade h = some (synced_options s.enabled s.mode) := by
  rw [VimState.sync_editor_options, upgrade_sync_fold, any_handle_of_mem hmem, hlive]
  rfl

theorem upgrade_sync_editor_options_dead (s : VimState) (w : World) (h : Nat)
    (hdead : w.upgrade h = none) :
    (s.sync_editor_options w).upgrade h = none := by
  rw [VimState.sync_editor_options, upgrade_sync_fold, hdead]
  simp

/-! ### Claim theorems -/

/-- C1: For every starting state with `enabled = true` and every sequence of
`switch_mode` calls made from it, `set_enabled false` resets the mode to the
default Mode, and a following `set_enabled true` leaves the mode at the
entry variant Normal, discarding whatever mode was active before
disabling. -/
theorem disable_enable_resets_mode (s : VimState) (w : World) (ms : List Mode)
    (h : s.enabled = true) :
    ((VimState.run_switch_modes s w ms).1.set_enabled false
        (VimState.run_switch_modes s w ms).2).1.mode = Mode.default ∧
    (((VimState.run_switch_modes s w ms).1.set_enabled false
          (VimState.run_switch_modes s w ms).2).1.set_enabled true
        ((VimState.run_switch_modes s w ms).1.set_enabled false
          (VimState.run_switch_modes s w ms).2).2.1).1.mode = Mode.normal := by
  have he : (VimState.run_switch_modes s w ms).1.enabled = true :=
    (run_switch_modes_enabled ms s w).trans h
  exact ⟨set_enabled_false_mode _ _ he,
    set_enabled_true_mode _ _ (set_enabled_fst_enabled _ false _)⟩

theorem disable_enable_resets_mode_witness :
    (VimState.mk [] none true Mode.Normal).enabled = true ∧
    (((VimState.run_switch_modes (VimState.mk [] none true Mode.Normal) [] [Mode.Insert]).1.set_enabled false
        (VimState.run_switch_modes (VimState.mk [] none true Mode.Normal) [] [Mode.Insert]).2).1.mode = Mode.default ∧
    ((((VimState.run_switch_modes (VimState.mk [] none true Mode.Normal) [] [Mode.Insert]).1.set_enabled false
          (VimState.run_switch_modes (VimState.mk [] none true Mode.Normal) [] [Mode.Insert]).2).1.set_enabled true
        ((VimState.run_switch_modes (VimState.mk [] none true Mode.Normal) [] [Mode.Insert]).1.set_enabled false
          (VimState.run_switch_modes (VimState.mk [] none true Mode.Normal) [] [Mode.Insert]).2).2.1).1.mode = Mode.normal)) :=
  ⟨rfl, disable_enable_resets_mode (VimState.mk [] none true Mode.Normal) [] [Mode.Insert] rfl⟩

/-- C2: `set_enabled v` with `v` equal to the current flag is a no-op
(state, arena and synchronization untouched); a call triggers at most one
synchronization pass; and a second consecutive call with the same value
changes nothing observable and runs zero synchronization passes. -/
theorem set_enabled_idempotent (s : VimState) (v : Bool) (w : World) :
    (s.enabled = v → s.set_enabled v w = (s, w, 0)) ∧
    (s.set_enabled v w).2.2 ≤ 1 ∧
    (s.set_enabled v w).1.set_enabled v (s.set_enabled v w).2.1
      = ((s.set_enabled v w).1, (s.set_enabled v w).2.1, 0) := by
  refine ⟨fun h => set_enabled_noop s v w h, ?_,
    set_enabled_noop _ v _ (set_enabled_fst_enabled s v w)⟩
  by_cases h : s.enabled = v
  · simp [set_enabled_noop s v w h]
  · simp [VimState.set_enabled, h]

theorem set_enabled_idempotent_witness :
    VimState.mk_default.enabled = false ∧
    VimState.mk_default.set_enabled false [] = (VimState.mk_default, [], 0) :=
  ⟨rfl, (set_enabled_idempotent VimState.mk_default false []).1 rfl⟩

/-- C3: While enabled, the synchronization pass leaves every live
registered editor with the mode's cursor shape, clipping at line ends iff
that shape is Block, raw-input forwarding iff the mode is Insert, and the
mode's keymap context layer installed. -/
theorem sync_enabled_config (s : VimState) (w : World) (id h : Nat) (e : EditorOptions)
    (hen : s.enabled = true) (hmem : (id, h) ∈ s.editors) (hlive : w.upgrade h = some e) :
    (s.sync_editor_options w).upgrade h =
      some { cursor_shape := s.mode.cursor_shape,
             clip_at_line_ends := s.mode.cursor_shape == CursorShape.Block,
             input_enabled := s.mode == Mode.Insert,
             keymap_context_layer := some s.mode.keymap_context_layer } := by
  rw [upgrade_sync_editor_options s w hmem hlive, hen]
  rfl

theorem sync_enabled_config_witness :
    ((VimState.mk [(1, 10)] none true Mode.Insert).enabled = true ∧
      (1, 10) ∈ (VimState.mk [(1, 10)] none true Mode.Insert).editors ∧
      World.upgrade [(10, EditorOptions.mk CursorShape.Block true false none)] 10 =
        some (EditorOptions.mk CursorShape.Block true false none)) ∧
    ((VimState.mk [(1, 10)] none true Mode.Insert).sync_editor_options
        [(10, EditorOptions.mk CursorShape.Block true false none)]).upgrade 10 =
      some { cursor_shape := Mode.Insert.cursor_shape,
             clip_at_line_ends := Mode.Insert.cursor_shape == CursorShape.Block,
             input_enabled := Mode.Insert == Mode.Insert,
             keymap_context_layer := some Mode.Insert.keymap_context_layer } :=
  ⟨⟨rfl, by decide, by decide⟩,
    sync_enabled_config (VimState.mk [(1, 10)] none true Mode.Insert)
      [(10, EditorOptions.mk CursorShape.Block true false none)] 1 10
      (EditorOptions.mk CursorShape.Block true false none) rfl (by decide) (by decide)⟩

/-- C4: While disabled, the synchronization pass leaves every live
registered editor in the passthrough configuration: Bar cursor, no
clipping, raw-input forwarding on, and no keymap context layer — whatever
the current mode value. -/
theorem sync_disabled_passthrough (s : VimState) (w : World) (id h : Nat) (e : EditorOptions)
    (hdis : s.enabled = false) (hmem : (id, h) ∈ s.editors) (hlive : w.upgrade h = some e) :
    (s.sync_editor_options w).upgrade h =
      some { cursor_shape := CursorShape.Bar, clip_at_line_ends := false,
             input_enabled := true, keymap_context_layer := none } := by
  rw [upgrade_sync_editor_options s w hmem hlive, hdis]
  rfl

theorem sync_disabled_passthrough_witness :
    ((VimState.mk [(1, 10)] none false Mode.Insert).enabled = false ∧
      (1, 10) ∈ (VimState.mk [(1, 10)] none false Mode.Insert).editors ∧
      World.upgrade [(10, EditorOptions.mk CursorShape.Block true false none)] 10 =
        some (EditorOptions.mk CursorShape.Block true false none)) ∧
    ((VimState.mk [(1, 10)] none false Mode.Insert).sync_editor_options
        [(10, EditorOptions.mk CursorShape.Block true false none)]).upgrade 10 =
      some { cursor_shape := CursorShape.Bar, clip_at_line_ends := false,
             input_enabled := true, keymap_context_layer := none } :=
  ⟨⟨rfl, by decide, by decide⟩,
    sync_disabled_passthrough (VimState.mk [(1, 10)] none false Mode.Insert)
      [(10, EditorOptions.mk CursorShape.Block true false none)] 1 10
      (EditorOptions.mk CursorShape.Block true false none) rfl (by decide) (by decide)⟩

/-- C5: `switch_mode` is total on all inputs (no preconditions),
unconditionally stores the new mode while touching no other state field,
and runs the synchronization pass exactly once, on the updated state. -/
theorem switch_mode_total_spec (s : VimState) (m : Mode) (w : World) :
    (s.switch_mode m w).1.mode = m ∧
    (s.switch_mode m w).1.enabled = s.enabled ∧
    (s.switch_mode m w).1.editors = s.editors ∧
    (s.switch_mode m w).1.active_editor = s.active_editor ∧
    (s.switch_mode m w).2.1 = (s.switch_mode m w).1.sync_editor_options w ∧
    (s.switch_mode m w).2.2 = 1 :=
  ⟨rfl, rfl, rfl, rfl, rfl, rfl⟩

/-- C6: A registry entry whose weak handle fails to resolve never disturbs
a transition: after `switch_mode` or `set_enabled` the dead entry is still
registered, the dead handle still resolves to nothing (it received no
configuration), and the synchronization pass computes the same arena as it
would with the dead entries dropped from the registry. -/
theorem dead_entry_tolerated (s : VimState) (w : World) (id h : Nat) (m : Mode) (b : Bool)
    (hmem : (id, h) ∈ s.editors) (hdead : w.upgrade h = none) :
    ((id, h) ∈ (s.switch_mode m w).1.editors ∧
      ((s.switch_mode m w).2.1).upgrade h = none) ∧
    ((id, h) ∈ (s.set_enabled b w).1.editors ∧
      ((s.set_enabled b w).2.1).upgrade h = none) ∧
    s.sync_editor_options w =
      VimState.sync_editor_options
        { s with editors := s.editors.filter fun entry => (w.upgrade entry.2).isSome } w := by
  refine ⟨⟨hmem, upgrade_sync_editor_options_dead _ _ _ hdead⟩, ⟨?_, ?_⟩, ?_⟩
  · rw [set_enabled_editors]
    exact hmem
  · by_cases hb : s.enabled = b
    · rw [set_enabled_noop s b w hb]
      exact hdead
    · cases b
      · have h1 : s.enabled = true := by revert hb; cases s.enabled <;> simp
        rw [set_enabled_false_of_enabled s w h1]
        exact upgrade_sync_editor_options_dead _ _ _ hdead
      · have h1 : s.enabled = false := by revert hb; cases s.enabled <;> simp
        rw [set_enabled_true_of_disabled s w h1]
        exact upgrade_sync_editor_options_dead _ _ _ hdead
  · exact sync_fold_filter_live s.enabled s.mode s.editors w

theorem dead_entry_tolerated_witness :
    ((1, 10) ∈ (VimState.mk [(1, 10)] none true Mode.Normal).editors ∧
      World.upgrade [] 10 = none) ∧
    (((1, 10) ∈ ((VimState.mk [(1, 10)] none true Mode.Normal).switch_mode
          Mode.Insert []).1.editors ∧
        (((VimState.mk [(1, 10)] none true Mode.Normal).switch_mode
          Mode.Insert []).2.1).upgrade 10 = none) ∧
      ((1, 10) ∈ ((VimState.mk [(1, 10)] none true Mode.Normal).set_enabled
          false []).1.editors ∧
        (((VimState.mk [(1, 10)] none true Mode.Normal).set_enabled
          false []).2.1).upgrade 10 = none) ∧
      (VimState.mk [(1, 10)] none true Mode.Normal).sync_editor_options [] =
        VimState.sync_editor_options
          { VimState.mk [(1, 10)] none true Mode.Normal with
            editors := (VimState.mk [(1, 10)] none true Mode.Normal).editors.filter
              fun entry => (World.upgrade [] entry.2).isSome } []) :=
  ⟨⟨by decide, rfl⟩,
    dead_entry_tolerated (VimState.mk [(1, 10)] none true Mode.Normal) [] 1 10
      Mode.Insert false (by decide) rfl⟩

/-- C7: The active-editor lookup returns absence when the active reference
is unset or fails to resolve, leaving the arena untouched; otherwise it
runs the given function on the resolved editor, stores the updated editor,
and returns its result — resolution failure is never an error. -/
theorem update_active_editor_spec {S : Type} (s : VimState) (w : World)
    (f : EditorOptions → EditorOptions × S) :
    (s.active_editor = none → s.update_active_editor w f = (none, w)) ∧
    (∀ a, s.active_editor = some a → w.upgrade a = none →
      s.update_active_editor w f = (none, w)) ∧
    (∀ a e, s.active_editor = some a → w.upgrade a = some e →
      s.update_active_editor w f =
        (some (f e).2, w.updateEditor a fun _ => (f e).1)) := by
  refine ⟨fun h => ?_, fun a ha hu => ?_, fun a e ha hu => ?_⟩
  · simp [VimState.update_active_editor, h]
  · simp [VimState.update_active_editor, ha, hu]
  · simp [VimState.update_active_editor, ha, hu]

theorem update_active_editor_spec_witness :
    (VimState.mk [] (some 5) true Mode.Normal).active_editor = some 5 ∧
    World.upgrade [(5, EditorOptions.mk CursorShape.Bar false true none)] 5 =
      some (EditorOptions.mk CursorShape.Bar false true none) ∧
    (VimState.mk [] (some 5) true Mode.Normal).update_active_editor
        [(5, EditorOptions.mk CursorShape.Bar false true none)]
        (fun e => (e.set_input_enabled false, (37 : Nat))) =
      (some 37, [(5, EditorOptions.mk CursorShape.Bar false false none)]) := by
  have hc := (update_active_editor_spec (VimState.mk [] (some 5) true Mode.Normal)
      [(5, EditorOptions.mk CursorShape.Bar false true none)]
      (fun e => (e.set_input_enabled false, (37 : Nat)))).2.2 5
      (EditorOptions.mk CursorShape.Bar false true none) rfl (by decide)
  exact ⟨rfl, by decide, by simpa using hc⟩

/-- C8: The derived default of the global modal state is disabled, in the
default mode, with an empty registry and no active editor. -/
theorem initial_state_default :
    VimState.mk_default.enabled = false ∧
    VimState.mk_default.mode = Mode.default ∧
    VimState.mk_default.editors = [] ∧
    VimState.mk_default.active_editor = none :=
  ⟨rfl, rfl, rfl, rfl⟩

/-- C9: The two mutation operations touch only the `(enabled, mode)` pair:
the registry and the active-editor reference survive both `switch_mode`
and `set_enabled` unchanged.  The synchronization pass and the
active-editor lookup take the state by immutable receiver in the source,
which the embedding reflects in their types (`sync_editor_options` and
`update_active_editor` return no `VimState`), so neither can alter the
global state. -/
theorem global_state_frame (s : VimState) (w : World) (m : Mode) (b : Bool) :
    ((s.switch_mode m w).1.editors = s.editors ∧
      (s.switch_mode m w).1.active_editor = s.active_editor) ∧
    ((s.set_enabled b w).1.editors = s.editors ∧
      (s.set_enabled b w).1.active_editor = s.active_editor) :=
  ⟨⟨rfl, rfl⟩, set_enabled_editors s b w, set_enabled_active_editor s b w⟩

/-- C10: `switch_mode m` while disabled stores `m`, yet the following
synchronization pass still pushes the disabled passthrough configuration
to every live registered editor, so the change is invisible there; and a
subsequent `set_enabled true` discards `m` for the entry mode Normal. -/
theorem switch_mode_while_disabled (s : VimState) (w : World) (m : Mode) (id h : Nat)
    (e : EditorOptions) (hdis : s.enabled = false) (hmem : (id, h) ∈ s.editors)
    (hlive : w.upgrade h = some e) :
    (s.switch_mode m w).1.mode = m ∧
    ((s.switch_mode m w).2.1).upgrade h =
      some { cursor_shape := CursorShape.Bar, clip_at_line_ends := false,
             input_enabled := true, keymap_context_layer := none } ∧
    ((s.switch_mode m w).1.set_enabled true (s.switch_mode m w).2.1).1.mode = Mode.normal := by
  refine ⟨rfl, ?_, set_enabled_true_mode _ _ hdis⟩
  show (VimState.sync_editor_options { s with mode := m } w).upgrade h = _
  rw [upgrade_sync_editor_options { s with mode := m } w hmem hlive]
  have h2 : ({ s with mode := m } : VimState).enabled = false := hdis
  rw [h2]
  rfl

theorem switch_mode_while_disabled_witness :
    ((VimState.mk [(1, 10)] none false Mode.Normal).enabled = false ∧
      (1, 10) ∈ (VimState.mk [(1, 10)] none false Mode.Normal).editors ∧
      World.upgrade [(10, EditorOptions.mk CursorShape.Block true false (some "Normal"))] 10 =
        some (EditorOptions.mk CursorShape.Block true false (some "Normal"))) ∧
    (((VimState.mk [(1, 10)] none false Mode.Normal).switch_mode Mode.Insert
        [(10, EditorOptions.mk CursorShape.Block true false (some "Normal"))]).1.mode = Mode.Insert ∧
      (((VimState.mk [(1, 10)] none false Mode.Normal).switch_mode Mode.Insert
          [(10, EditorOptions.mk CursorShape.Block true false (some "Normal"))]).2.1).upgrade 10 =
        some { cursor_shape := CursorShape.Bar, clip_at_line_ends := false,
               input_enabled := true, keymap_context_layer := none } ∧
      (((VimState.mk [(1, 10)] none false Mode.Normal).switch_mode Mode.Insert
          [(10, EditorOptions.mk CursorShape.Block true false (some "Normal"))]).1.set_enabled true
        ((VimState.mk [(1, 10)] none false Mode.Normal).switch_mode Mode.Insert
          [(10, EditorOptions.mk CursorShape.Block true false (some "Normal"))]).2.1).1.mode =
        Mode.normal) :=
  ⟨⟨rfl, by decide, by decide⟩,
    switch_mode_while_disabled (VimState.mk [(1, 10)] none false Mode.Normal)
      [(10, EditorOptions.mk CursorShape.Block true false (some "Normal"))] Mode.Insert 1 10
      (EditorOptions.mk CursorShape.Block true false (some "Normal")) rfl (by decide) (by decide)⟩

end Vim
